import Mathlib

/-!
Verification of the ClaraVerse workflow-execution core: a shallow embedding
of the executor registry, the daily execution limiter, the workflow
WebSocket transport handler, and the memory-model pool, with theorems
checking the natural-language specification against the code.
-/

namespace ClaraVerse

/-! ### Association-list maps

Go `map[string]V` values are embedded as association lists with
replace-or-append insertion; only lookup-extensional behaviour is used. -/

/-- Lookup a key in an association list (Go map read `m[k]`). -/
def lookupKV {α : Type} : List (String × α) → String → Option α
  | [], _ => none
  | (k, v) :: rest, key => if k = key then some v else lookupKV rest key

/-- Insert or replace a key in an association list (Go map write `m[k] = v`). -/
def insertKV {α : Type} : List (String × α) → String → α → List (String × α)
  | [], key, v => [(key, v)]
  | (k, w) :: rest, key, v =>
      if k = key then (k, v) :: rest else (k, w) :: insertKV rest key v

theorem lookupKV_insertKV_self {α : Type} (l : List (String × α)) (k : String) (v : α) :
    lookupKV (insertKV l k v) k = some v := by
  induction l with
  | nil => simp [insertKV, lookupKV]
  | cons hd tl ih =>
      obtain ⟨k', w⟩ := hd
      by_cases h : k' = k
      · simp [insertKV, lookupKV, h]
      · simp [insertKV, lookupKV, h, ih]

theorem lookupKV_insertKV_ne {α : Type} (l : List (String × α)) (k k' : String) (v : α)
    (h : k' ≠ k) : lookupKV (insertKV l k v) k' = lookupKV l k' := by
  induction l with
  | nil =>
      have hne : k ≠ k' := fun hk => h hk.symm
      simp [insertKV, lookupKV, hne]
  | cons hd tl ih =>
      obtain ⟨k₀, w⟩ := hd
      have hkk : k ≠ k' := fun hk => h hk.symm
      by_cases h0 : k₀ = k
      · simp [insertKV, lookupKV, h0, hkk]
      · by_cases h1 : k₀ = k'
        · subst h1
          simp [insertKV, lookupKV, h0]
        · simp [insertKV, lookupKV, h0, h1, ih]

/-! ### Executor registry

Embedding of `ExecutorRegistry` from `internal/execution` (config.go):
a map from block-type tags to block executors.  The three concrete
executors built by `NewExecutorRegistry` are abstract tokens here; the
registry logic never inspects them. -/

/-- Block executors, abstracted to tokens: the registry only stores and
returns them.  `custom` stands for any executor registered later. -/
inductive BlockExecutor : Type
  | variableExecutor : BlockExecutor
  | agentBlockExecutor : BlockExecutor
  | toolExecutor : BlockExecutor
  | custom : Nat → BlockExecutor
deriving DecidableEq, Repr

/-- `ExecutorRegistry` holds the block-type → executor map. -/
structure ExecutorRegistry : Type where
  executors : List (String × BlockExecutor)
deriving DecidableEq, Repr

/-- `NewExecutorRegistry`: registry with the three built-in block types. -/
def newExecutorRegistry : ExecutorRegistry :=
  ⟨[("variable", BlockExecutor.variableExecutor),
    ("llm_inference", BlockExecutor.agentBlockExecutor),
    ("code_block", BlockExecutor.toolExecutor)]⟩

/-- `ExecutorRegistry.Get`: retrieve an executor for a block type; error
when no executor is registered for it. -/
def ExecutorRegistry.get (r : ExecutorRegistry) (blockType : String) :
    Except String BlockExecutor :=
  match lookupKV r.executors blockType with
  | none => Except.error ("no executor registered for block type: " ++ blockType)
  | some e => Except.ok e

/-- `ExecutorRegistry.Register`: add (or replace) an executor for a block type. -/
def ExecutorRegistry.register (r : ExecutorRegistry) (blockType : String)
    (e : BlockExecutor) : ExecutorRegistry :=
  ⟨insertKV r.executors blockType e⟩

/-! ### Execution limiter

Embedding of `ExecutionLimiter` from `internal/middleware/execution_limiter.go`.
Redis and the tier service are external collaborators: their observable
answers are inputs to the embedded functions.  `redisConfigured` is whether
the limiter holds a non-nil Redis client; a Redis `GET` on the day key
answers with a value, a missing key (`redis.Nil`), or some other error. -/

/-- Outcome of the Redis `GET` on the per-user-per-day execution counter. -/
inductive RedisGet : Type
  | val : Int → RedisGet
  | missing : RedisGet
  | fail : String → RedisGet
deriving DecidableEq, Repr

/-- `ExecutionLimiter.GetRemainingExecutions`: remaining executions for the
user today, as a pair of the returned count and the returned error.
`maxPerDay` is the tier's `MaxExecutionsPerDay`. -/
def getRemainingExecutions (redisConfigured : Bool) (maxPerDay : Int)
    (g : RedisGet) : Int × Option String :=
  if !redisConfigured then (-1, none)
  else if maxPerDay = -1 then (-1, none)
  else
    match g with
    | RedisGet.missing => (maxPerDay, none)
    | RedisGet.fail e => (-1, some e)
    | RedisGet.val count =>
        let remaining := maxPerDay - count
        if remaining < 0 then (0, none) else (remaining, none)

/-- `ExecutionLimiter.IncrementCount`: bump today's counter.  `store` is the
observable counter state; `pipeErr` is the error of the Redis pipeline
execution (`none` when the pipeline succeeds). -/
def incrementCount (redisConfigured : Bool) (store : List (String × Int))
    (key : String) (pipeErr : Option String) : List (String × Int) × Option String :=
  if !redisConfigured then (store, none)
  else
    match pipeErr with
    | some e => (store, some e)
    | none =>
        match lookupKV store key with
        | none => (insertKV store key 1, none)
        | some n => (insertKV store key (n + 1), none)

/-- Outcome of the `CheckLimit` Fiber middleware. -/
inductive CheckOutcome : Type
  | next : CheckOutcome
  | unauthorized : CheckOutcome
  | invalidUser : CheckOutcome
  | tooManyRequests : Int → Int → CheckOutcome
deriving DecidableEq, Repr

/-- `ExecutionLimiter.CheckLimit`: the request-gating middleware.
`userLocal` is the `user_id` request local (`none` = absent,
`some none` = present but not a string, `some (some s)` = a string). -/
def checkLimit (userLocal : Option (Option String)) (maxPerDay : Int)
    (g : RedisGet) : CheckOutcome :=
  match userLocal with
  | none => CheckOutcome.unauthorized
  | some none => CheckOutcome.invalidUser
  | some (some _) =>
      if maxPerDay = -1 then CheckOutcome.next
      else
        match g with
        | RedisGet.fail _ => CheckOutcome.next
        | RedisGet.missing =>
            if (0 : Int) ≥ maxPerDay then CheckOutcome.tooManyRequests maxPerDay 0
            else CheckOutcome.next
        | RedisGet.val count =>
            if count ≥ maxPerDay then CheckOutcome.tooManyRequests maxPerDay count
            else CheckOutcome.next

/-! ### Workflow WebSocket transport

Embedding of `WorkflowWebSocketHandler.handleExecuteWorkflow` (handlers
package in execution_limiter.go's file group).  The handler is modelled as
a function from the observable answers of its collaborators (limiter,
agent service, execution service, engine) to the ordered trace of its
externally visible actions: messages written to the socket, the engine
invocation, and the closing of the status channel. -/

/-- Values stored in a `map[string]any` input map: strings (the only shape
the handler itself writes) and opaque client-supplied payloads. -/
inductive Val : Type
  | str : String → Val
  | blob : Nat → Val
deriving DecidableEq, Repr

/-- An input map `map[string]any`. -/
abbrev InputMap : Type := List (String × Val)

/-- The fields of `WorkflowServerMessage` that the claims observe. -/
structure ServerMsg : Type where
  type : String
  executionID : String
  status : String
  error : String
deriving DecidableEq, Repr

/-- Workflow token: the handler never inspects the workflow beyond nil-ness
and its version, so it is abstract here. -/
structure Workflow : Type where
  version : Nat
deriving DecidableEq, Repr

/-- The fields of `Agent` read by the handler. -/
structure Agent : Type where
  workflow : Option Workflow
  description : String
deriving DecidableEq, Repr

/-- The fields of the engine's `ExecutionResult` read by the handler. -/
structure ExecutionResult : Type where
  status : String
  error : String
deriving DecidableEq, Repr

/-- One externally visible action of `handleExecuteWorkflow`, in program
order: a socket write, the synchronous engine call (recording the workflow
and the input map passed to `ExecuteWithOptions`), or `close(statusChan)`. -/
inductive Event : Type
  | send : ServerMsg → Event
  | engineCall : Workflow → InputMap → Event
  | closeChan : Event
deriving DecidableEq, Repr

deriving instance DecidableEq for Except

/-- Observable answers of the handler's collaborators for one request. -/
structure HandlerEnv : Type where
  /-- `h.executionLimiter`: `none` when nil, otherwise the answer of
  `GetRemainingExecutions` (`Except.error` = it returned an error). -/
  limiter : Option (Except String Int)
  /-- Answer of `h.agentService.GetAgent`. -/
  getAgent : Except String Agent
  /-- `h.executionService`: `none` when nil, otherwise the answer of
  `Create` (the created record's id, or an error). -/
  execService : Option (Except String String)
  /-- The locally generated UUID used when the execution service is nil. -/
  localID : String
  /-- Answer of `h.workflowEngine.ExecuteWithOptions`. -/
  engine : Except String ExecutionResult
deriving DecidableEq, Repr

/-- The fields of `WorkflowClientMessage` read by `handleExecuteWorkflow`. -/
structure ClientMsg : Type where
  agentID : String
  input : Option InputMap
deriving DecidableEq, Repr

/-- Build a `WorkflowServerMessage` of type `error`. -/
def errorMsg (e : String) : ServerMsg := ⟨"error", "", "", e⟩

/-- The limiter gate at the top of `handleExecuteWorkflow`: `some trace`
when the handler returns early with that trace, `none` when it proceeds. -/
def limiterGate (limiter : Option (Except String Int)) : Option (List Event) :=
  match limiter with
  | none => none
  | some (Except.error _) => none
  | some (Except.ok remaining) =>
      if remaining = 0 then
        some [Event.send (errorMsg
          "Daily execution limit exceeded. Please upgrade your plan or wait until tomorrow.")]
      else none

/-- The execution-record step: the execution id used for the run, or the
early-return trace when `Create` fails. -/
def execRecordStep (env : HandlerEnv) : Except (List Event) String :=
  match env.execService with
  | none => Except.ok env.localID
  | some (Except.error e) =>
      Except.error [Event.send (errorMsg ("Failed to create execution: " ++ e))]
  | some (Except.ok recID) => Except.ok recID

/-- `WorkflowWebSocketHandler.handleExecuteWorkflow`, as the trace of its
externally visible actions for one `execute_workflow` request. -/
def handleExecuteWorkflow (env : HandlerEnv) (userID : String) (msg : ClientMsg) :
    List Event :=
  match limiterGate env.limiter with
  | some blocked => blocked
  | none =>
      match env.getAgent with
      | Except.error e => [Event.send (errorMsg ("Agent not found: " ++ e))]
      | Except.ok agent =>
          match agent.workflow with
          | none => [Event.send (errorMsg "Agent has no workflow defined")]
          | some wf =>
              match execRecordStep env with
              | Except.error blocked => blocked
              | Except.ok execID =>
                  let started := Event.send ⟨"execution_started", execID, "", ""⟩
                  let engineInput :=
                    insertKV (msg.input.getD []) "__user_id__" (Val.str userID)
                  let tail :=
                    match env.engine with
                    | Except.error e =>
                        [Event.send ⟨"execution_complete", execID, "failed", e⟩]
                    | Except.ok result =>
                        [Event.send ⟨"execution_complete", execID, result.status, result.error⟩]
                  started :: Event.engineCall wf engineInput :: Event.closeChan :: tail

/-! ### Engine-side handling of reserved keys (modelled from the spec)

The `WorkflowEngine` and its executors are not among the sources under
verification (only their caller, the transport, is), so the engine-side
part of the `__user_id__` claim is modelled from the spec. -/

/-- Keys of the reserved namespace the trigger input is merged under (the
spec's "reserved key namespace", e.g. the hidden `__user_id__`): names
that start and end with a double underscore. -/
def reservedKey (k : String) : Bool :=
  decide (k.toList.take 2 = ['_', '_']) &&
  decide (k.toList.reverse.take 2 = ['_', '_'])

/-- Modelled from the spec: the engine's resolution of a block's declared
named inputs out of the shared variable bag (the `WorkflowEngine` input
resolution is missing from the sources).  Per the spec, the trigger input
is merged into the initial variable bag "under a reserved key namespace
(e.g. a hidden `__user_id__` entry used downstream for credential/tool
resolution — this value must never be exposed to model prompts or returned
in outputs)", and "each block reads only its declared named inputs": a
reserved-namespace key is therefore never resolved into a block's inputs. -/
def resolveBlockInputs (bag : InputMap) (declared : List String) : InputMap :=
  declared.filterMap (fun k =>
    if reservedKey k then none
    else (lookupKV bag k).map (fun v => (k, v)))

/-- A piece of a prompt template: literal text or an
`\x7b\x7binput.field\x7d\x7d`-style placeholder. -/
inductive TemplatePart : Type
  | lit : String → TemplatePart
  | placeholder : String → TemplatePart
deriving DecidableEq, Repr

/-- Textual form of an input value when substituted into a prompt. -/
def valText : Val → String
  | Val.str s => s
  | Val.blob n => toString n

/-- Modelled from the spec: prompt rendering of the Agent (LLM) executor
(missing from the sources), which "renders the block's prompt template by
substituting `\x7b\x7binput.field\x7d\x7d`-style placeholders with values
from `inputs`"; a placeholder missing from the inputs renders empty. -/
def renderPrompt (tpl : List TemplatePart) (inputs : InputMap) : String :=
  match tpl with
  | [] => ""
  | TemplatePart.lit s :: rest => s ++ renderPrompt rest inputs
  | TemplatePart.placeholder f :: rest =>
      ((lookupKV inputs f).elim "" valText) ++ renderPrompt rest inputs

/-! ### Memory model pool

Embedding of `MemoryModelPool` (round-robin selection with health and
cooldown tracking).  Wall-clock instants are naturals (nanoseconds);
`time.Since(t)` is `now - t`. -/

/-- Source constant `MaxConsecutiveFailures = 3`. -/
def MaxConsecutiveFailures : Nat := 3

/-- Source constant `HealthCheckCooldown = 5 * time.Minute`, in nanoseconds. -/
def HealthCheckCooldown : Nat := 5 * 60 * 1000000000

/-- Source constant `MinSuccessesToRecover = 2`. -/
def MinSuccessesToRecover : Nat := 2

/-- `ModelHealth`: health and failure tracking for one model. -/
structure ModelHealth : Type where
  failureCount : Nat
  successCount : Nat
  lastFailure : Nat
  lastSuccess : Nat
  isHealthy : Bool
  consecutiveFails : Nat
deriving DecidableEq, Repr

/-- `ModelCandidate`: a model eligible for memory operations. -/
structure ModelCandidate : Type where
  modelID : String
  providerName : String
  speedMs : Int
  displayName : String
deriving DecidableEq, Repr

/-- `MemoryModelPool` state (the mutex is concurrency plumbing, not state). -/
structure MemoryModelPool : Type where
  extractorModels : List ModelCandidate
  selectorModels : List ModelCandidate
  extractorIndex : Nat
  selectorIndex : Nat
  healthTracker : List (String × ModelHealth)
deriving DecidableEq, Repr

/-- `MemoryModelPool.MarkSuccess`: record a successful call for `modelID`. -/
def markSuccess (p : MemoryModelPool) (now : Nat) (modelID : String) :
    MemoryModelPool :=
  match lookupKV p.healthTracker modelID with
  | none => p
  | some h =>
      let h1 : ModelHealth :=
        { h with successCount := h.successCount + 1, lastSuccess := now,
                 consecutiveFails := 0 }
      let h2 : ModelHealth :=
        if h1.isHealthy = false ∧ MinSuccessesToRecover ≤ h1.successCount then
          { h1 with isHealthy := true }
        else h1
      { p with healthTracker := insertKV p.healthTracker modelID h2 }

/-- `MemoryModelPool.MarkFailure`: record a failed call for `modelID`. -/
def markFailure (p : MemoryModelPool) (now : Nat) (modelID : String) :
    MemoryModelPool :=
  match lookupKV p.healthTracker modelID with
  | none => p
  | some h =>
      let h1 : ModelHealth :=
        { h with failureCount := h.failureCount + 1,
                 consecutiveFails := h.consecutiveFails + 1, lastFailure := now }
      let h2 : ModelHealth :=
        if MaxConsecutiveFailures ≤ h1.consecutiveFails then
          { h1 with isHealthy := false }
        else h1
      { p with healthTracker := insertKV p.healthTracker modelID h2 }

/-- The round-robin loop body of `GetNextExtractor`: starting at index
`idx` with `fuel` remaining attempts it yields the updated tracker, the
index after the loop, and the selected model (if any); `none` models the
panics an out-of-range index or a missing health record would cause. -/
def scanExtractors (models : List ModelCandidate) (now : Nat) :
    List (String × ModelHealth) → Nat → Nat →
    Option (List (String × ModelHealth) × Nat × Option String)
  | tracker, idx, 0 => some (tracker, idx, none)
  | tracker, idx, fuel + 1 =>
      match models.get? idx with
      | none => none
      | some c =>
          let idx' := (idx + 1) % models.length
          match lookupKV tracker c.modelID with
          | none => none
          | some h =>
              if h.isHealthy then some (tracker, idx', some c.modelID)
              else if HealthCheckCooldown < now - h.lastFailure then
                some (insertKV tracker c.modelID
                        { h with isHealthy := true, consecutiveFails := 0 },
                      idx', some c.modelID)
              else scanExtractors models now tracker idx' fuel

/-- `MemoryModelPool.GetNextExtractor`: next healthy (or cooled-down)
extractor in round-robin order, falling back to the first (fastest) model
when all are unhealthy; error only when the pool is empty.  `none` models
a panic (unreachable for well-formed pools). -/
def getNextExtractor (p : MemoryModelPool) (now : Nat) :
    Option (MemoryModelPool × Except String String) :=
  match p.extractorModels with
  | [] => some (p, Except.error "no extractor models available")
  | c0 :: _ =>
      match scanExtractors p.extractorModels now p.healthTracker
              p.extractorIndex p.extractorModels.length with
      | none => none
      | some (tracker', idx', some m) =>
          some ({ p with healthTracker := tracker', extractorIndex := idx' },
                Except.ok m)
      | some (tracker', idx', none) =>
          some ({ p with healthTracker := tracker', extractorIndex := idx' },
                Except.ok c0.modelID)

/-- A model is selectable when its record is healthy or its cooldown since
the last failure has elapsed. -/
def selectable (now : Nat) (h : ModelHealth) : Bool :=
  h.isHealthy || decide (HealthCheckCooldown < now - h.lastFailure)

/-- The round-robin candidate order: the `fuel` candidates visited starting
at index `idx`. -/
def rrWindow (models : List ModelCandidate) : Nat → Nat → List ModelCandidate
  | _, 0 => []
  | idx, fuel + 1 =>
      match models.get? idx with
      | none => []
      | some c => c :: rrWindow models ((idx + 1) % models.length) fuel

/-- First selectable candidate of a candidate list under a health tracker. -/
def firstSelectable (tracker : List (String × ModelHealth)) (now : Nat) :
    List ModelCandidate → Option ModelCandidate
  | [] => none
  | c :: rest =>
      match lookupKV tracker c.modelID with
      | none => none
      | some h =>
          if selectable now h then some c else firstSelectable tracker now rest

/-- Tracker state after a selection: unchanged for a healthy pick or no
pick, reset to healthy with zero consecutive failures for a cooldown pick. -/
def trackerAfterSelect (tracker : List (String × ModelHealth)) :
    Option ModelCandidate → List (String × ModelHealth)
  | none => tracker
  | some c =>
      match lookupKV tracker c.modelID with
      | none => tracker
      | some h =>
          if h.isHealthy then tracker
          else insertKV tracker c.modelID
                 { h with isHealthy := true, consecutiveFails := 0 }

/-! ## Theorems -/

/-- C5: `ExecutorRegistry.Get` returns an error exactly when no executor is
registered for the block type, and on a registry built by
`NewExecutorRegistry` it succeeds exactly for the three built-in block
types `variable`, `llm_inference` and `code_block`. -/
theorem executorRegistry_get_spec :
    (∀ (r : ExecutorRegistry) (t : String),
        (∃ e, r.get t = Except.error e) ↔ lookupKV r.executors t = none) ∧
    (∀ t : String,
        (∃ x, newExecutorRegistry.get t = Except.ok x) ↔
          (t = "variable" ∨ t = "llm_inference" ∨ t = "code_block")) := by
  constructor
  · intro r t
    unfold ExecutorRegistry.get
    cases h : lookupKV r.executors t <;> simp
  · intro t
    constructor
    · intro hx
      obtain ⟨x, hx⟩ := hx
      by_cases h1 : "variable" = t
      · exact Or.inl h1.symm
      · by_cases h2 : "llm_inference" = t
        · exact Or.inr (Or.inl h2.symm)
        · by_cases h3 : "code_block" = t
          · exact Or.inr (Or.inr h3.symm)
          · exfalso
            unfold newExecutorRegistry ExecutorRegistry.get at hx
            simp [lookupKV, h1, h2, h3] at hx
    · intro h
      rcases h with h | h | h <;> subst h <;> exact ⟨_, rfl⟩

/-- C8: after `Register(t, x)`, `Get(t)` returns exactly `x` (a later
registration wins over any earlier one for `t`), and `Get` on every other
block type is unaffected. -/
theorem register_then_get (r : ExecutorRegistry) (t : String) (x : BlockExecutor) :
    (r.register t x).get t = Except.ok x ∧
    ∀ t' : String, t' ≠ t → (r.register t x).get t' = r.get t' := by
  constructor
  · unfold ExecutorRegistry.get ExecutorRegistry.register
    simp [lookupKV_insertKV_self]
  · intro t' ht
    unfold ExecutorRegistry.get ExecutorRegistry.register
    simp [lookupKV_insertKV_ne r.executors t t' x ht]

/-- C8 witness: a concrete re-registration wins and leaves other types alone. -/
theorem register_then_get_witness :
    (newExecutorRegistry.register "variable" (BlockExecutor.custom 7)).get "variable" =
        Except.ok (BlockExecutor.custom 7) ∧
    (newExecutorRegistry.register "variable" (BlockExecutor.custom 7)).get "code_block" =
        newExecutorRegistry.get "code_block" :=
  ⟨(register_then_get newExecutorRegistry "variable" (BlockExecutor.custom 7)).1,
   (register_then_get newExecutorRegistry "variable" (BlockExecutor.custom 7)).2
     "code_block" (by decide)⟩

/-- C6: `GetRemainingExecutions` returns −1 with no Redis client or an
unlimited tier, the full daily limit when no executions are recorded
today, the limit minus today's count clamped below at 0 on a counter
read, and never a negative number other than −1. -/
theorem getRemainingExecutions_spec :
    (∀ (lim : Int) (g : RedisGet), getRemainingExecutions false lim g = (-1, none)) ∧
    (∀ g : RedisGet, getRemainingExecutions true (-1) g = (-1, none)) ∧
    (∀ lim : Int, lim ≠ -1 →
        getRemainingExecutions true lim RedisGet.missing = (lim, none)) ∧
    (∀ (lim count : Int), lim ≠ -1 →
        getRemainingExecutions true lim (RedisGet.val count) =
          (max (lim - count) 0, none)) ∧
    (∀ (b : Bool) (lim : Int) (g : RedisGet), -1 ≤ lim →
        (getRemainingExecutions b lim g).1 < 0 →
          (getRemainingExecutions b lim g).1 = -1) := by
  refine ⟨fun lim g => rfl, fun g => rfl, fun lim h => ?_, fun lim count h => ?_, ?_⟩
  · simp [getRemainingExecutions, h]
  · simp only [getRemainingExecutions, Bool.not_true, if_neg, h, Bool.false_eq_true,
      if_false]
    by_cases hc : lim - count < 0
    · rw [if_pos hc, max_eq_right (le_of_lt hc)]
    · rw [if_neg hc, max_eq_left (not_lt.mp hc)]
  · intro b lim g hdom
    cases b with
    | false => intro _; rfl
    | true =>
        by_cases h : lim = -1
        · simp [getRemainingExecutions, h]
        · cases g with
          | missing =>
              simp only [getRemainingExecutions, h]
              intro hlt
              simp at hlt
              omega
          | fail e => intro _; simp [getRemainingExecutions, h]
          | val count =>
              simp only [getRemainingExecutions, h]
              by_cases hc : lim - count < 0
              · simp [hc]
              · simp [hc]

/-- C6 witness: with a limit of 5 and 3 executions used, 2 remain. -/
theorem getRemainingExecutions_spec_witness :
    getRemainingExecutions true 5 (RedisGet.val 3) = (2, none) := by
  have h := getRemainingExecutions_spec.2.2.2.1 5 3 (by decide)
  simpa using h

/-- C9: with a nil Redis client, `IncrementCount` returns no error and
leaves every counter unchanged, and `GetRemainingExecutions` returns
(−1, nil): limiting is silently disabled and reported as unlimited. -/
theorem nilRedis_disables_limiting :
    (∀ (store : List (String × Int)) (key : String) (pe : Option String),
        incrementCount false store key pe = (store, none)) ∧
    (∀ (lim : Int) (g : RedisGet), getRemainingExecutions false lim g = (-1, none)) :=
  ⟨fun _ _ _ => rfl, fun _ _ => rfl⟩

/-- C10: `MarkSuccess` and `MarkFailure` on a model id with no health
record leave the pool state completely unchanged. -/
theorem mark_unknown_model_noop (p : MemoryModelPool) (now : Nat) (modelID : String)
    (h : lookupKV p.healthTracker modelID = none) :
    markSuccess p now modelID = p ∧ markFailure p now modelID = p := by
  constructor
  · unfold markSuccess
    rw [h]
  · unfold markFailure
    rw [h]

/-- C10 witness: marking an untracked model on a concrete pool is a no-op. -/
theorem mark_unknown_model_noop_witness :
    markSuccess ⟨[⟨"m1", "p", 10, "M1"⟩], [], 0, 0, [("m1", ⟨0, 0, 0, 0, true, 0⟩)]⟩
        99 "ghost" =
      ⟨[⟨"m1", "p", 10, "M1"⟩], [], 0, 0, [("m1", ⟨0, 0, 0, 0, true, 0⟩)]⟩ ∧
    markFailure ⟨[⟨"m1", "p", 10, "M1"⟩], [], 0, 0, [("m1", ⟨0, 0, 0, 0, true, 0⟩)]⟩
        99 "ghost" =
      ⟨[⟨"m1", "p", 10, "M1"⟩], [], 0, 0, [("m1", ⟨0, 0, 0, 0, true, 0⟩)]⟩ :=
  mark_unknown_model_noop
    ⟨[⟨"m1", "p", 10, "M1"⟩], [], 0, 0, [("m1", ⟨0, 0, 0, 0, true, 0⟩)]⟩
    99 "ghost" (by decide)

/-- C4: the rate limiter fails open: a Redis read error in `CheckLimit`
lets the request proceed, `CheckLimit` blocks exactly when the read count
has reached the limit, an error from `GetRemainingExecutions` makes the
handler behave exactly as if no limiter were configured, and the handler's
limiter gate blocks only on a successfully read remaining count of 0. -/
theorem limiter_fails_open :
    (∀ (u : String) (lim : Int) (e : String),
        checkLimit (some (some u)) lim (RedisGet.fail e) = CheckOutcome.next) ∧
    (∀ (u : String) (lim count : Int), lim ≠ -1 →
        ((∃ l c, checkLimit (some (some u)) lim (RedisGet.val count) =
            CheckOutcome.tooManyRequests l c) ↔ lim ≤ count)) ∧
    (∀ (env : HandlerEnv) (userID : String) (msg : ClientMsg) (e : String),
        env.limiter = some (Except.error e) →
        handleExecuteWorkflow env userID msg =
          handleExecuteWorkflow { env with limiter := none } userID msg) ∧
    (∀ l : Option (Except String Int),
        (limiterGate l).isSome ↔ l = some (Except.ok 0)) := by
  refine ⟨?_, ?_, ?_, ?_⟩
  · intro u lim e
    by_cases h : lim = -1 <;> simp [checkLimit, h]
  · intro u lim count h
    constructor
    · intro hlc
      obtain ⟨l, c, hlc⟩ := hlc
      by_cases hc : count ≥ lim
      · exact hc
      · simp [checkLimit, h, hc] at hlc
    · intro hc
      refine ⟨lim, count, ?_⟩
      simp [checkLimit, h, hc]
  · intro env userID msg e h
    unfold handleExecuteWorkflow limiterGate execRecordStep
    simp [h]
  · intro l
    match l with
    | none => simp [limiterGate]
    | some (Except.error e) => simp [limiterGate]
    | some (Except.ok r) =>
        by_cases hr : r = 0 <;> simp [limiterGate, hr]

/-- C4 witness: concrete instances of the fail-open behaviour. -/
theorem limiter_fails_open_witness :
    checkLimit (some (some "u1")) 10 (RedisGet.fail "redis down") = CheckOutcome.next ∧
    ((∃ l c, checkLimit (some (some "u1")) 10 (RedisGet.val 10) =
        CheckOutcome.tooManyRequests l c) ↔ (10 : Int) ≤ 10) ∧
    handleExecuteWorkflow
        ⟨some (Except.error "redis down"), Except.error "missing", none, "id0",
          Except.ok ⟨"completed", ""⟩⟩ "u1" ⟨"a1", none⟩ =
      handleExecuteWorkflow
        ⟨none, Except.error "missing", none, "id0", Except.ok ⟨"completed", ""⟩⟩
        "u1" ⟨"a1", none⟩ ∧
    ((limiterGate (some (Except.ok 0))).isSome ↔
        (some (Except.ok 0) : Option (Except String Int)) = some (Except.ok 0)) :=
  ⟨limiter_fails_open.1 "u1" 10 "redis down",
   limiter_fails_open.2.1 "u1" 10 10 (by decide),
   limiter_fails_open.2.2.1
     ⟨some (Except.error "redis down"), Except.error "missing", none, "id0",
       Except.ok ⟨"completed", ""⟩⟩ "u1" ⟨"a1", none⟩ "redis down" rfl,
   limiter_fails_open.2.2.2 (some (Except.ok 0))⟩

/-- Closing-shape helper: a one-error-message trace ends in a send whose
type is `error`, and contains no engine call. -/
theorem closing_error_shape (e : String) :
    ∃ (pre : List Event) (m : ServerMsg),
      ([Event.send (errorMsg e)] : List Event) = pre ++ [Event.send m] ∧
      (m.type = "error" ∨ m.type = "execution_complete") ∧
      (m.type = "execution_complete" ↔
        ∃ wf inp, Event.engineCall wf inp ∈ ([Event.send (errorMsg e)] : List Event)) := by
  refine ⟨[], errorMsg e, rfl, Or.inl rfl, ?_⟩
  constructor
  · intro h
    have h' : ("error" : String) = "execution_complete" := h
    exact absurd h' (by decide)
  · intro hex
    obtain ⟨wf, inp, hmem⟩ := hex
    simp at hmem

/-- C1 counterexample: on an agent-lookup failure the handler sends only an
`error` message and never a terminal `execution_complete` message. -/
theorem no_execution_complete_on_agent_lookup_failure :
    ¬ ∃ m : ServerMsg,
        Event.send m ∈ handleExecuteWorkflow
            ⟨none, Except.error "agent missing", none, "local-1",
              Except.ok ⟨"completed", ""⟩⟩ "user-1" ⟨"agent-1", none⟩ ∧
        m.type = "execution_complete" := by
  intro hex
  obtain ⟨m, hmem, htype⟩ := hex
  have htr : handleExecuteWorkflow
      ⟨none, Except.error "agent missing", none, "local-1",
        Except.ok ⟨"completed", ""⟩⟩ "user-1" ⟨"agent-1", none⟩ =
      [Event.send (errorMsg ("Agent not found: " ++ "agent missing"))] := rfl
  rw [htr] at hmem
  simp at hmem
  rw [hmem] at htype
  exact absurd htype (by decide)

/-- C1 (amended): every `execute_workflow` request ends with exactly one
closing message: a terminal `execution_complete` exactly when the engine
was invoked, and an `error` message for the pre-start failures (limit
exhausted, agent lookup failure, nil workflow, execution-record creation
failure). -/
theorem handler_always_sends_closing_message (env : HandlerEnv) (userID : String)
    (msg : ClientMsg) :
    ∃ (pre : List Event) (m : ServerMsg),
      handleExecuteWorkflow env userID msg = pre ++ [Event.send m] ∧
      (m.type = "error" ∨ m.type = "execution_complete") ∧
      (m.type = "execution_complete" ↔
        ∃ wf inp, Event.engineCall wf inp ∈ handleExecuteWorkflow env userID msg) := by
  unfold handleExecuteWorkflow
  split
  · next blocked hl =>
      have hb : blocked = [Event.send (errorMsg
          "Daily execution limit exceeded. Please upgrade your plan or wait until tomorrow.")] := by
        unfold limiterGate at hl
        rcases hlim : env.limiter with _ | res
        · rw [hlim] at hl
          simp at hl
        · rw [hlim] at hl
          rcases res with e | r
          · simp at hl
          · by_cases hr : r = 0
            · simp [hr] at hl
              exact hl.symm
            · simp [hr] at hl
      rw [hb]
      exact closing_error_shape _
  · split
    · next e hga => exact closing_error_shape ("Agent not found: " ++ e)
    · next agent hga =>
        split
        · next hwf => exact closing_error_shape "Agent has no workflow defined"
        · next wf hwf =>
            split
            · next blocked₂ hrec =>
                have hb : ∃ e, blocked₂ = [Event.send (errorMsg e)] := by
                  unfold execRecordStep at hrec
                  rcases hes : env.execService with _ | res
                  · rw [hes] at hrec
                    simp at hrec
                  · rw [hes] at hrec
                    rcases res with e | rid
                    · simp at hrec
                      exact ⟨"Failed to create execution: " ++ e, hrec.symm⟩
                    · simp at hrec
                obtain ⟨e, hbe⟩ := hb
                rw [hbe]
                exact closing_error_shape e
            · next execID hrec =>
                rcases heng : env.engine with e | result
                · refine ⟨[Event.send ⟨"execution_started", execID, "", ""⟩,
                    Event.engineCall wf (insertKV (msg.input.getD []) "__user_id__"
                      (Val.str userID)), Event.closeChan],
                    ⟨"execution_complete", execID, "failed", e⟩, ?_, Or.inr rfl, ?_⟩
                  · simp only [heng]
                    rfl
                  · simp only [heng]
                    constructor
                    · intro _
                      exact ⟨wf, insertKV (msg.input.getD []) "__user_id__"
                        (Val.str userID), by simp⟩
                    · intro _
                      trivial
                · refine ⟨[Event.send ⟨"execution_started", execID, "", ""⟩,
                    Event.engineCall wf (insertKV (msg.input.getD []) "__user_id__"
                      (Val.str userID)), Event.closeChan],
                    ⟨"execution_complete", execID, result.status, result.error⟩,
                    ?_, Or.inr rfl, ?_⟩
                  · simp only [heng]
                    rfl
                  · simp only [heng]
                    constructor
                    · intro _
                      exact ⟨wf, insertKV (msg.input.getD []) "__user_id__"
                        (Val.str userID), by simp⟩
                    · intro _
                      trivial

/-- C2: when a request reaches the engine, the status channel is closed
exactly once, immediately after `ExecuteWithOptions` returns, on both the
success and the error path. -/
theorem statusChan_closed_once (env : HandlerEnv) (userID : String) (msg : ClientMsg)
    (agent : Agent) (wf : Workflow) (execID : String)
    (h1 : limiterGate env.limiter = none)
    (h2 : env.getAgent = Except.ok agent)
    (h3 : agent.workflow = some wf)
    (h4 : execRecordStep env = Except.ok execID) :
    ∃ m : ServerMsg,
      handleExecuteWorkflow env userID msg =
        [Event.send ⟨"execution_started", execID, "", ""⟩,
         Event.engineCall wf (insertKV (msg.input.getD []) "__user_id__" (Val.str userID)),
         Event.closeChan, Event.send m] ∧
      m.type = "execution_complete" ∧
      List.count Event.closeChan (handleExecuteWorkflow env userID msg) = 1 := by
  have htr : handleExecuteWorkflow env userID msg =
      Event.send ⟨"execution_started", execID, "", ""⟩ ::
      Event.engineCall wf (insertKV (msg.input.getD []) "__user_id__" (Val.str userID)) ::
      Event.closeChan ::
      (match env.engine with
       | Except.error e =>
           [Event.send ⟨"execution_complete", execID, "failed", e⟩]
       | Except.ok result =>
           [Event.send ⟨"execution_complete", execID, result.status, result.error⟩]) := by
    unfold handleExecuteWorkflow
    simp only [h1, h2, h3, h4]
  rcases heng : env.engine with e | result
  · rw [heng] at htr
    refine ⟨⟨"execution_complete", execID, "failed", e⟩, htr, rfl, ?_⟩
    rw [htr]
    simp [List.count_cons]
  · rw [heng] at htr
    refine ⟨⟨"execution_complete", execID, result.status, result.error⟩, htr, rfl, ?_⟩
    rw [htr]
    simp [List.count_cons]

/-- C2 witness: a concrete request that reaches the engine. -/
theorem statusChan_closed_once_witness :
    ∃ m : ServerMsg,
      handleExecuteWorkflow
          ⟨none, Except.ok ⟨some ⟨3⟩, "demo agent"⟩, none, "exec-9",
            Except.ok ⟨"completed", ""⟩⟩ "u1" ⟨"a1", none⟩ =
        [Event.send ⟨"execution_started", "exec-9", "", ""⟩,
         Event.engineCall ⟨3⟩ (insertKV (none.getD []) "__user_id__" (Val.str "u1")),
         Event.closeChan, Event.send m] ∧
      m.type = "execution_complete" ∧
      List.count Event.closeChan
        (handleExecuteWorkflow
          ⟨none, Except.ok ⟨some ⟨3⟩, "demo agent"⟩, none, "exec-9",
            Except.ok ⟨"completed", ""⟩⟩ "u1" ⟨"a1", none⟩) = 1 :=
  statusChan_closed_once
    ⟨none, Except.ok ⟨some ⟨3⟩, "demo agent"⟩, none, "exec-9",
      Except.ok ⟨"completed", ""⟩⟩ "u1" ⟨"a1", none⟩
    ⟨some ⟨3⟩, "demo agent"⟩ ⟨3⟩ "exec-9" rfl rfl rfl rfl

/-- Helper: resolving a block's declared inputs depends only on the
non-reserved part of the variable bag. -/
theorem resolveBlockInputs_congr (bag₁ bag₂ : InputMap) (declared : List String)
    (h : ∀ k, reservedKey k = false → lookupKV bag₁ k = lookupKV bag₂ k) :
    resolveBlockInputs bag₁ declared = resolveBlockInputs bag₂ declared := by
  induction declared with
  | nil => rfl
  | cons k d ih =>
      unfold resolveBlockInputs at ih ⊢
      simp only [List.filterMap_cons]
      by_cases hr : reservedKey k = true
      · simp [hr, ih]
      · have hr' : reservedKey k = false := by
          cases hrk : reservedKey k
          · rfl
          · exact absurd hrk hr
        simp [hr', h k hr', ih]

/-- Helper: resolved block inputs never contain a reserved-namespace key. -/
theorem resolveBlockInputs_no_reserved (bag : InputMap) (declared : List String)
    (k : String) (v : Val) (hmem : (k, v) ∈ resolveBlockInputs bag declared) :
    reservedKey k = false := by
  unfold resolveBlockInputs at hmem
  simp only [List.mem_filterMap] at hmem
  obtain ⟨a, _, hopt⟩ := hmem
  by_cases hr : reservedKey a = true
  · simp [hr] at hopt
  · have hr' : reservedKey a = false := by
      cases hrk : reservedKey a
      · rfl
      · exact absurd hrk hr
    simp only [hr', Bool.false_eq_true, if_false, Option.map_eq_some'] at hopt
    obtain ⟨w, hw, heq⟩ := hopt
    have hak : a = k := congrArg Prod.fst heq
    rw [← hak]
    exact hr'

/-- C3: before invoking the engine the transport injects the authenticated
user id into the trigger input under `__user_id__` (creating the map when
the client sent none), and — with the engine's reserved-key handling
modelled from the spec — that value never reaches resolved block inputs,
rendered model prompts, or block outputs. -/
theorem userId_injected_and_hidden :
    (∀ (env : HandlerEnv) (userID : String) (msg : ClientMsg) (agent : Agent)
        (wf : Workflow) (execID : String),
        limiterGate env.limiter = none → env.getAgent = Except.ok agent →
        agent.workflow = some wf → execRecordStep env = Except.ok execID →
        Event.engineCall wf (insertKV (msg.input.getD []) "__user_id__" (Val.str userID))
          ∈ handleExecuteWorkflow env userID msg) ∧
    (∀ (m : InputMap) (userID : String),
        lookupKV (insertKV m "__user_id__" (Val.str userID)) "__user_id__" =
          some (Val.str userID)) ∧
    (∀ (bag₁ bag₂ : InputMap) (declared : List String),
        (∀ k, reservedKey k = false → lookupKV bag₁ k = lookupKV bag₂ k) →
        resolveBlockInputs bag₁ declared = resolveBlockInputs bag₂ declared) ∧
    (∀ (bag : InputMap) (declared : List String) (k : String) (v : Val),
        (k, v) ∈ resolveBlockInputs bag declared → reservedKey k = false) ∧
    (∀ (tpl : List TemplatePart) (bag₁ bag₂ : InputMap) (declared : List String),
        (∀ k, reservedKey k = false → lookupKV bag₁ k = lookupKV bag₂ k) →
        renderPrompt tpl (resolveBlockInputs bag₁ declared) =
          renderPrompt tpl (resolveBlockInputs bag₂ declared)) := by
  refine ⟨?_, ?_, resolveBlockInputs_congr, resolveBlockInputs_no_reserved, ?_⟩
  · intro env userID msg agent wf execID h1 h2 h3 h4
    unfold handleExecuteWorkflow
    simp only [h1, h2, h3, h4]
    rcases env.engine with e | result <;> simp
  · intro m userID
    exact lookupKV_insertKV_self m "__user_id__" (Val.str userID)
  · intro tpl bag₁ bag₂ declared h
    rw [resolveBlockInputs_congr bag₁ bag₂ declared h]

/-- C3 witness: concrete injection and concrete noninterference — two bags
differing only in the `__user_id__` value resolve to the same block inputs
and render the same prompt. -/
theorem userId_injected_and_hidden_witness :
    Event.engineCall ⟨3⟩ (insertKV ((some [("text", Val.str "hello")]).getD [])
        "__user_id__" (Val.str "u1"))
      ∈ handleExecuteWorkflow
          ⟨none, Except.ok ⟨some ⟨3⟩, "demo agent"⟩, none, "exec-9",
            Except.ok ⟨"completed", ""⟩⟩ "u1" ⟨"a1", some [("text", Val.str "hello")]⟩ ∧
    lookupKV (insertKV [("text", Val.str "hello")] "__user_id__" (Val.str "u1"))
        "__user_id__" = some (Val.str "u1") ∧
    resolveBlockInputs
        [("text", Val.str "hello"), ("__user_id__", Val.str "u1")] ["text", "__user_id__"] =
      resolveBlockInputs
        [("text", Val.str "hello"), ("__user_id__", Val.str "u2")] ["text", "__user_id__"] ∧
    renderPrompt [TemplatePart.lit "Say: ", TemplatePart.placeholder "text"]
        (resolveBlockInputs
          [("text", Val.str "hello"), ("__user_id__", Val.str "u1")] ["text", "__user_id__"]) =
      renderPrompt [TemplatePart.lit "Say: ", TemplatePart.placeholder "text"]
        (resolveBlockInputs
          [("text", Val.str "hello"), ("__user_id__", Val.str "u2")] ["text", "__user_id__"]) := by
  have hagree : ∀ k, reservedKey k = false →
      lookupKV [("text", Val.str "hello"), ("__user_id__", Val.str "u1")] k =
      lookupKV [("text", Val.str "hello"), ("__user_id__", Val.str "u2")] k := by
    intro k hk
    unfold lookupKV
    by_cases h1 : "text" = k
    · simp [h1]
    · by_cases h2 : "__user_id__" = k
      · rw [← h2] at hk
        exact absurd hk (by decide)
      · simp [h1, h2, lookupKV]
  refine ⟨?_, ?_, ?_, ?_⟩
  · exact userId_injected_and_hidden.1
      ⟨none, Except.ok ⟨some ⟨3⟩, "demo agent"⟩, none, "exec-9",
        Except.ok ⟨"completed", ""⟩⟩ "u1" ⟨"a1", some [("text", Val.str "hello")]⟩
      ⟨some ⟨3⟩, "demo agent"⟩ ⟨3⟩ "exec-9" rfl rfl rfl rfl
  · exact userId_injected_and_hidden.2.1 [("text", Val.str "hello")] "u1"
  · exact userId_injected_and_hidden.2.2.1 _ _ ["text", "__user_id__"] hagree
  · exact userId_injected_and_hidden.2.2.2.2
      [TemplatePart.lit "Say: ", TemplatePart.placeholder "text"] _ _
      ["text", "__user_id__"] hagree

/-- Helper: the round-robin scan of `GetNextExtractor` selects exactly the
first selectable candidate of the round-robin window (updating that
candidate's record on a cooldown pick), and never panics on a well-formed
pool. -/
theorem scanExtractors_spec (models : List ModelCandidate) (now : Nat) (fuel : Nat) :
    ∀ (idx : Nat) (tracker : List (String × ModelHealth)),
      idx < models.length →
      (∀ c ∈ models, (lookupKV tracker c.modelID).isSome) →
      ∃ idx', idx' < models.length ∧
        scanExtractors models now tracker idx fuel =
          some (trackerAfterSelect tracker
                  (firstSelectable tracker now (rrWindow models idx fuel)),
                idx',
                Option.map (fun c => c.modelID)
                  (firstSelectable tracker now (rrWindow models idx fuel))) := by
  induction fuel with
  | zero =>
      intro idx tracker hidx hcov
      exact ⟨idx, hidx, rfl⟩
  | succ fuel ih =>
      intro idx tracker hidx hcov
      have hget : models.get? idx = some (models.get ⟨idx, hidx⟩) :=
        List.get?_eq_get hidx
      have hcmem : models.get ⟨idx, hidx⟩ ∈ models := List.get_mem models idx hidx
      have hsome := hcov _ hcmem
      rw [Option.isSome_iff_exists] at hsome
      obtain ⟨h, hlk⟩ := hsome
      have hlen : 0 < models.length := Nat.lt_of_le_of_lt (Nat.zero_le idx) hidx
      have hmod : (idx + 1) % models.length < models.length := Nat.mod_lt _ hlen
      have hwin : rrWindow models idx (fuel + 1) =
          models.get ⟨idx, hidx⟩ :: rrWindow models ((idx + 1) % models.length) fuel := by
        simp only [rrWindow, hget]
      by_cases hh : (h.isHealthy : Prop)
      · have hsel : selectable now h = true := by simp [selectable, hh]
        have hfs : firstSelectable tracker now (rrWindow models idx (fuel + 1)) =
            some (models.get ⟨idx, hidx⟩) := by
          rw [hwin]
          simp only [firstSelectable, hlk, hsel, if_true]
        refine ⟨(idx + 1) % models.length, hmod, ?_⟩
        rw [hfs]
        simp only [scanExtractors, hget, hlk, trackerAfterSelect, Option.map_some']
        simp [hh]
      · have hh' : h.isHealthy = false := by
          revert hh
          cases h.isHealthy <;> simp
        by_cases hcd : HealthCheckCooldown < now - h.lastFailure
        · have hsel : selectable now h = true := by simp [selectable, hcd]
          have hfs : firstSelectable tracker now (rrWindow models idx (fuel + 1)) =
              some (models.get ⟨idx, hidx⟩) := by
            rw [hwin]
            simp only [firstSelectable, hlk, hsel, if_true]
          refine ⟨(idx + 1) % models.length, hmod, ?_⟩
          rw [hfs]
          simp only [scanExtractors, hget, hlk, trackerAfterSelect, Option.map_some']
          simp [hh', hcd]
        · have hsel : selectable now h = false := by
            simp [selectable, hh', hcd]
          have hfs : firstSelectable tracker now (rrWindow models idx (fuel + 1)) =
              firstSelectable tracker now
                (rrWindow models ((idx + 1) % models.length) fuel) := by
            rw [hwin]
            simp only [firstSelectable, hlk, hsel]
            simp
          have hstep : scanExtractors models now tracker idx (fuel + 1) =
              scanExtractors models now tracker ((idx + 1) % models.length) fuel := by
            simp only [scanExtractors, hget, hlk]
            simp [hh', hcd]
          obtain ⟨idx'', hlt, heq⟩ := ih ((idx + 1) % models.length) tracker hmod hcov
          refine ⟨idx'', hlt, ?_⟩
          rw [hfs, hstep, heq]

/-- C7: on a well-formed non-empty extractor pool, `GetNextExtractor`
returns a model and no error: the first candidate in round-robin order
that is healthy or whose cooldown has elapsed (the cooldown pick being
reset to healthy with zero consecutive failures), falling back to the
first (fastest) model when no candidate qualifies; an error is returned
only for an empty pool. -/
theorem getNextExtractor_spec (p : MemoryModelPool) (now : Nat) (c0 : ModelCandidate)
    (rest : List ModelCandidate)
    (hmodels : p.extractorModels = c0 :: rest)
    (hidx : p.extractorIndex < p.extractorModels.length)
    (hcov : ∀ c ∈ p.extractorModels, (lookupKV p.healthTracker c.modelID).isSome) :
    (∃ idx',
      getNextExtractor p now = some
        ({ p with
            healthTracker := trackerAfterSelect p.healthTracker
              (firstSelectable p.healthTracker now
                (rrWindow p.extractorModels p.extractorIndex p.extractorModels.length)),
            extractorIndex := idx' },
         Except.ok
           (Option.elim
             (firstSelectable p.healthTracker now
               (rrWindow p.extractorModels p.extractorIndex p.extractorModels.length))
             c0.modelID (fun c => c.modelID)))) ∧
    (∀ (q : MemoryModelPool) (m : Nat) (s' : MemoryModelPool) (e : String),
        getNextExtractor q m = some (s', Except.error e) → q.extractorModels = []) := by
  constructor
  · obtain ⟨idx', hlt, hscan⟩ := scanExtractors_spec p.extractorModels now
      p.extractorModels.length p.extractorIndex p.healthTracker hidx hcov
    refine ⟨idx', ?_⟩
    rcases hfs : firstSelectable p.healthTracker now
        (rrWindow p.extractorModels p.extractorIndex p.extractorModels.length)
      with _ | csel
    · rw [hfs] at hscan
      unfold getNextExtractor
      simp only [hmodels] at hscan ⊢
      rw [hscan]
      simp [trackerAfterSelect, hmodels]
    · rw [hfs] at hscan
      unfold getNextExtractor
      simp only [hmodels] at hscan ⊢
      rw [hscan]
      simp [hmodels]
  · intro q m s' e hq
    unfold getNextExtractor at hq
    rcases hm : q.extractorModels with _ | ⟨d0, drest⟩
    · rfl
    · rw [hm] at hq
      rcases hscan : scanExtractors (d0 :: drest) m q.healthTracker q.extractorIndex
          (d0 :: drest).length with _ | ⟨t', i', sel⟩
      · rw [hscan] at hq
        cases hq
      · rw [hscan] at hq
        rcases sel with _ | mm
        · simp at hq
        · simp at hq

/-- A concrete two-model pool: the first (fastest-ordered) model is
unhealthy and still in cooldown, the second is healthy. -/
def demoPool : MemoryModelPool :=
  ⟨[⟨"slow-a", "prov", 100, "A"⟩, ⟨"fast-b", "prov", 50, "B"⟩], [], 0, 0,
   [("slow-a", ⟨2, 0, 900, 0, false, 2⟩), ("fast-b", ⟨0, 3, 0, 1000, true, 0⟩)]⟩

/-- C7 witness: on the concrete pool the round-robin selection succeeds. -/
theorem getNextExtractor_spec_witness :
    ∃ idx',
      getNextExtractor demoPool 1000 = some
        ({ demoPool with
            healthTracker := trackerAfterSelect demoPool.healthTracker
              (firstSelectable demoPool.healthTracker 1000
                (rrWindow demoPool.extractorModels demoPool.extractorIndex
                  demoPool.extractorModels.length)),
            extractorIndex := idx' },
         Except.ok
           (Option.elim
             (firstSelectable demoPool.healthTracker 1000
               (rrWindow demoPool.extractorModels demoPool.extractorIndex
                 demoPool.extractorModels.length))
             (⟨"slow-a", "prov", 100, "A"⟩ : ModelCandidate).modelID
             (fun c => c.modelID))) :=
  (getNextExtractor_spec demoPool 1000 ⟨"slow-a", "prov", 100, "A"⟩
    [⟨"fast-b", "prov", 50, "B"⟩] rfl (by decide) (by decide)).1

end ClaraVerse
